import Mathlib

/-!
Verification of the DEXES bonding-curve trading core against its design
specification. The pumpfun library that implements the core (Curve Math,
Price Fetcher, Subscription Manager, Transaction Pipeline, Liquidation
Engine) is distributed separately from the notebooks in this repository;
where a definition embeds one of those missing components it is modelled
from the specification text, as its doc comment states. The notebook
code that is present (PUMPFUN_TOOLS.ipynb) is embedded directly.
-/

namespace DEXES

/-! ## Curve Math -/

/-- On-chain bonding-curve reserve state, as decoded from the curve
account. Reserves are raw base-unit integers (lamports for SOL, token
base units for the token). -/
structure CurveState where
  virtual_token_reserves : Nat
  virtual_sol_reserves : Nat
  real_token_reserves : Nat
  real_sol_reserves : Nat
  token_total_supply : Nat
  complete : Bool
deriving Repr, DecidableEq

/-- Typed error of the Curve Math layer. -/
inductive CurveError where
  | DivisionByZero
deriving Repr, DecidableEq

/-- Lamports per SOL: the scale factor of the 9 SOL decimals. -/
def LAMPORTS_PER_SOL : ℚ := 1000000000

/-- Base units per token: the scale factor of the 6 pump.fun token decimals. -/
def TOKEN_UNITS_PER_TOKEN : ℚ := 1000000

/-- Modelled from the spec: Curve Math `price()` of the pumpfun library
(not shipped in this repository): priceSol = virtualSolReserves /
virtualTokenReserves, both scaled by their token decimals; fails with
`DivisionByZero` when virtualTokenReserves is 0. Prices are exact
rationals here, standing for the floating-point values of the
implementation. -/
def price (c : CurveState) : Except CurveError ℚ :=
  if c.virtual_token_reserves = 0 then
    Except.error CurveError.DivisionByZero
  else
    Except.ok (((c.virtual_sol_reserves : ℚ) / LAMPORTS_PER_SOL) /
      ((c.virtual_token_reserves : ℚ) / TOKEN_UNITS_PER_TOKEN))

/-- Modelled from the spec: Curve Math `bondingProgress()` of the pumpfun
library (not shipped in this repository): realSolReserves /
migrationThreshold × 100, clamped to the interval [0, 100]; the
migration threshold is supplied as configuration. -/
def bondingProgress (c : CurveState) (migrationThreshold : ℚ) : ℚ :=
  min 100 (max 0 ((c.real_sol_reserves : ℚ) / migrationThreshold * 100))

/-- C1: for every CurveState whose virtualTokenReserves is strictly
positive, price() returns virtualSolReserves divided by
virtualTokenReserves (each scaled by its token decimals), exactly, hence
within the floating-point tolerance 1e-12. -/
theorem curve_price_exact_ratio (c : CurveState)
    (h : 0 < c.virtual_token_reserves) :
    ∃ p : ℚ, price c = Except.ok p ∧
      |p - ((c.virtual_sol_reserves : ℚ) / LAMPORTS_PER_SOL) /
        ((c.virtual_token_reserves : ℚ) / TOKEN_UNITS_PER_TOKEN)| ≤
          1 / 1000000000000 := by
  refine ⟨((c.virtual_sol_reserves : ℚ) / LAMPORTS_PER_SOL) /
    ((c.virtual_token_reserves : ℚ) / TOKEN_UNITS_PER_TOKEN), ?_, ?_⟩
  · simp [price, Nat.pos_iff_ne_zero.mp h]
  · simp

/-- Witness for C1, at the spec example curve state with
virtualSolReserves = 30_000_000_000 and virtualTokenReserves =
1_000_000_000_000. -/
theorem curve_price_exact_ratio_witness :
    0 < (1000000000000 : Nat) ∧
      ∃ p : ℚ,
        price ⟨1000000000000, 30000000000, 0, 0, 1000000000000, false⟩ =
            Except.ok p ∧
          |p - ((30000000000 : ℚ) / LAMPORTS_PER_SOL) /
            ((1000000000000 : ℚ) / TOKEN_UNITS_PER_TOKEN)| ≤
              1 / 1000000000000 :=
  ⟨by norm_num,
    curve_price_exact_ratio
      ⟨1000000000000, 30000000000, 0, 0, 1000000000000, false⟩
      (by norm_num)⟩

/-- C2: for every CurveState whose virtualTokenReserves is 0, price()
fails with the typed error DivisionByZero. -/
theorem curve_price_zero_reserves_division_by_zero (c : CurveState)
    (h : c.virtual_token_reserves = 0) :
    price c = Except.error CurveError.DivisionByZero := by
  simp [price, h]

/-- Witness for C2, at a curve state with zero virtual token reserves. -/
theorem curve_price_zero_reserves_division_by_zero_witness :
    (CurveState.virtual_token_reserves ⟨0, 5, 0, 0, 0, false⟩ = 0) ∧
      price ⟨0, 5, 0, 0, 0, false⟩ =
        Except.error CurveError.DivisionByZero :=
  ⟨rfl, curve_price_zero_reserves_division_by_zero
    ⟨0, 5, 0, 0, 0, false⟩ rfl⟩

/-- C3: bondingProgress() equals realSolReserves / migrationThreshold ×
100 clamped to [0, 100]; for a fixed positive migrationThreshold it is
monotone non-decreasing in realSolReserves, and it returns exactly 100
whenever realSolReserves is at or beyond migrationThreshold. -/
theorem bonding_progress_clamped_monotone (c : CurveState)
    (migrationThreshold : ℚ) (hpos : 0 < migrationThreshold) :
    (bondingProgress c migrationThreshold =
        min 100 (max 0
          ((c.real_sol_reserves : ℚ) / migrationThreshold * 100))) ∧
      (0 ≤ bondingProgress c migrationThreshold ∧
        bondingProgress c migrationThreshold ≤ 100) ∧
      (∀ r1 r2 : Nat, r1 ≤ r2 →
        bondingProgress { c with real_sol_reserves := r1 }
            migrationThreshold ≤
          bondingProgress { c with real_sol_reserves := r2 }
            migrationThreshold) ∧
      (∀ r : Nat, migrationThreshold ≤ (r : ℚ) →
        bondingProgress { c with real_sol_reserves := r }
          migrationThreshold = 100) := by
  refine ⟨rfl, ⟨?_, ?_⟩, ?_, ?_⟩
  · exact le_min (by norm_num) (le_max_left 0 _)
  · exact min_le_left _ _
  · intro r1 r2 hle
    refine min_le_min le_rfl (max_le_max le_rfl ?_)
    have hc : (r1 : ℚ) ≤ (r2 : ℚ) := by exact_mod_cast hle
    have hdiv : (r1 : ℚ) / migrationThreshold ≤ (r2 : ℚ) / migrationThreshold :=
      div_le_div_of_nonneg_right hc hpos.le
    exact mul_le_mul_of_nonneg_right hdiv (by norm_num)
  · intro r hr
    have h1 : (1 : ℚ) ≤ (r : ℚ) / migrationThreshold :=
      (one_le_div hpos).mpr hr
    have h100 : (100 : ℚ) ≤ (r : ℚ) / migrationThreshold * 100 := by
      nlinarith
    have hmax : max 0 ((r : ℚ) / migrationThreshold * 100) =
        (r : ℚ) / migrationThreshold * 100 :=
      max_eq_right (by linarith)
    simp only [bondingProgress, hmax]
    exact min_eq_left h100

/-- Witness for C3, at migration threshold 85 SOL expressed in lamports. -/
theorem bonding_progress_clamped_monotone_witness :
    (0 : ℚ) < 85000000000 ∧
      ((bondingProgress ⟨0, 0, 0, 42000000000, 0, false⟩ 85000000000 =
          min 100 (max 0 ((42000000000 : ℚ) / 85000000000 * 100))) ∧
        (0 ≤ bondingProgress ⟨0, 0, 0, 42000000000, 0, false⟩ 85000000000 ∧
          bondingProgress ⟨0, 0, 0, 42000000000, 0, false⟩ 85000000000 ≤ 100) ∧
        (∀ r1 r2 : Nat, r1 ≤ r2 →
          bondingProgress ⟨0, 0, 0, r1, 0, false⟩ 85000000000 ≤
            bondingProgress ⟨0, 0, 0, r2, 0, false⟩ 85000000000) ∧
        (∀ r : Nat, (85000000000 : ℚ) ≤ (r : ℚ) →
          bondingProgress ⟨0, 0, 0, r, 0, false⟩ 85000000000 = 100)) :=
  ⟨by norm_num,
    bonding_progress_clamped_monotone ⟨0, 0, 0, 42000000000, 0, false⟩
      85000000000 (by norm_num)⟩

/-! ## Subscription Manager -/

/-- A decoded inbound event carrying the key (mint or account address)
it concerns. -/
structure PumpEvent where
  key : String
deriving Repr, DecidableEq

/-- A monitoring session and the set of keys it has subscribed to. -/
structure Session where
  subscribed_keys : List String
deriving Repr, DecidableEq

/-- Modelled from the spec: the Subscription Manager routing of the
pumpfun library (not shipped in this repository): inbound events are
decoded once and routed only to sessions whose subscribed-key set
matches, so the events a session's callback receives are exactly the
events of the stream whose key the session subscribed to, in stream
order. -/
def dispatchToSession (s : Session) (events : List PumpEvent) :
    List PumpEvent :=
  events.filter (fun e => s.subscribed_keys.contains e.key)

/-- A session monitoring a single token, as started by
monitor_single_token_only in PUMPFUN_TOOLS.ipynb. -/
def singleTokenSession (tokenAddress : String) : Session :=
  ⟨[tokenAddress]⟩

/-- C4: a session monitoring a single token A receives only events whose
key is A from a mixed stream; no event whose key is a different token B
is ever delivered to it. -/
theorem dispatch_only_subscribed_token (a b : String)
    (events : List PumpEvent) (hne : b ≠ a) :
    ∀ e ∈ dispatchToSession (singleTokenSession a) events,
      e.key = a ∧ e.key ≠ b := by
  intro e he
  have hmem := List.of_mem_filter he
  have hkey : e.key = a := by
    simpa [singleTokenSession] using hmem
  exact ⟨hkey, by rw [hkey]; exact Ne.symm hne⟩

/-- Witness for C4, on a stream mixing events of tokens A and B. -/
theorem dispatch_only_subscribed_token_witness :
    ("B" : String) ≠ "A" ∧
      ∀ e ∈ dispatchToSession (singleTokenSession "A")
          [⟨"A"⟩, ⟨"B"⟩, ⟨"A"⟩, ⟨"B"⟩],
        e.key = "A" ∧ e.key ≠ "B" :=
  ⟨by decide,
    dispatch_only_subscribed_token "A" "B" [⟨"A"⟩, ⟨"B"⟩, ⟨"A"⟩, ⟨"B"⟩]
      (by decide)⟩

/-- Modelled from the spec: alert evaluation of the pumpfun library
Subscription Manager (not shipped in this repository): each inbound
price is compared against the optional `above` threshold; the alert is
latched, firing at most once per threshold per session. Given the latch
state and the prices seen by the session, returns for each price
whether the above-alert fires there. -/
def aboveAlertFires (x : ℚ) : Bool → List ℚ → List Bool
  | _, [] => []
  | latched, p :: ps =>
    if latched = false ∧ x < p then
      true :: aboveAlertFires x true ps
    else
      false :: aboveAlertFires x latched ps

/-- Once the above-alert is latched it never fires again in the session. -/
theorem aboveAlertFires_latched (x : ℚ) (ps : List ℚ) :
    aboveAlertFires x true ps = List.replicate ps.length false := by
  induction ps with
  | nil => rfl
  | cons p ps ih => simp [aboveAlertFires, ih, List.replicate_succ]

/-- C5: for an `above = X` alert, starting unlatched, a price sequence
that is monotonically non-decreasing and crosses X produces exactly one
alert firing, at the first index whose price exceeds X, and no firing
at any later index of the session. -/
theorem above_alert_fires_once (x : ℚ) (ps : List ℚ)
    (hmono : ps.Chain' (· ≤ ·)) (hcross : ∃ p ∈ ps, x < p) :
    aboveAlertFires x false ps =
        List.replicate (ps.findIdx (fun p => decide (x < p))) false ++
          true ::
            List.replicate
              (ps.length - ps.findIdx (fun p => decide (x < p)) - 1)
              false ∧
      (aboveAlertFires x false ps).count true = 1 := by
  refine ⟨?_, ?_⟩
  · clear hmono
    induction ps with
    | nil => simp at hcross
    | cons p ps ih =>
      by_cases hp : x < p
      · simp [aboveAlertFires, hp, List.findIdx_cons,
          aboveAlertFires_latched]
      · obtain ⟨q, hq, hxq⟩ := hcross
        have hqps : q ∈ ps := by
          rcases List.mem_cons.mp hq with h | h
          · exact absurd (h ▸ hxq) hp
          · exact h
        have := ih ⟨q, hqps, hxq⟩
        simp [aboveAlertFires, hp, List.findIdx_cons, this,
          List.replicate_succ, Nat.succ_sub_succ]
  · clear hmono
    induction ps with
    | nil => simp at hcross
    | cons p ps ih =>
      by_cases hp : x < p
      · simp [aboveAlertFires, hp, aboveAlertFires_latched,
          List.count_cons, List.count_replicate]
      · obtain ⟨q, hq, hxq⟩ := hcross
        have hqps : q ∈ ps := by
          rcases List.mem_cons.mp hq with h | h
          · exact absurd (h ▸ hxq) hp
          · exact h
        have := ih ⟨q, hqps, hxq⟩
        simp [aboveAlertFires, hp, List.count_cons, this]

/-- Witness for C5, on the monotone sequence 3, 5, 7, 9 crossing the
threshold 5: the alert fires exactly at the third price. -/
theorem above_alert_fires_once_witness :
    ([(3 : ℚ), 5, 7, 9].Chain' (· ≤ ·) ∧
        ∃ p ∈ [(3 : ℚ), 5, 7, 9], (5 : ℚ) < p) ∧
      (aboveAlertFires 5 false [3, 5, 7, 9] =
          List.replicate
              ([(3 : ℚ), 5, 7, 9].findIdx (fun p => decide ((5 : ℚ) < p)))
              false ++
            true ::
              List.replicate
                ([(3 : ℚ), 5, 7, 9].length -
                  [(3 : ℚ), 5, 7, 9].findIdx
                    (fun p => decide ((5 : ℚ) < p)) - 1)
                false ∧
        (aboveAlertFires 5 false [3, 5, 7, 9]).count true = 1) :=
  ⟨⟨by norm_num, ⟨7, by norm_num, by norm_num⟩⟩,
    above_alert_fires_once 5 [3, 5, 7, 9] (by norm_num)
      ⟨7, by norm_num, by norm_num⟩⟩

/-! ## Transaction Pipeline -/

/-- Outcome of one sendTransaction call of the chain-RPC collaborator. -/
inductive RpcSubmitResult where
  | accepted (signature : String)
  | staleBlockhash
  | rejected (msg : String)
deriving Repr, DecidableEq

/-- Whether the RPC rejected the submission (stale blockhash or any
other rejection), as opposed to accepting it. -/
def RpcSubmitResult.isRejection : RpcSubmitResult → Bool
  | .accepted _ => false
  | .staleBlockhash => true
  | .rejected _ => true

/-- Typed errors of the trade pipeline layer. -/
inductive TradeError where
  | InvalidRequest
  | SubmitError
deriving Repr, DecidableEq

/-- Outcome of the submit stage as seen by the caller. -/
inductive SubmitOutcome where
  | success (signature : String)
  | error (e : TradeError)
deriving Repr, DecidableEq

/-- Modelled from the spec: the submit stage of the pumpfun Transaction
Pipeline (not shipped in this repository). `fetchBlockhash n` is the
n-th getLatestBlockhash call and `respond bh` the RPC verdict on the
transaction built with blockhash `bh`. A stale-blockhash rejection
triggers exactly one automatic rebuild with a fresh blockhash and one
resubmission; a second rejection surfaces SubmitError. The second
component records the blockhash of every submission actually performed,
in order. -/
def submitStage (fetchBlockhash : Nat → String)
    (respond : String → RpcSubmitResult) : SubmitOutcome × List String :=
  let bh0 := fetchBlockhash 0
  match respond bh0 with
  | .accepted s => (.success s, [bh0])
  | .rejected _ => (.error .SubmitError, [bh0])
  | .staleBlockhash =>
    let bh1 := fetchBlockhash 1
    match respond bh1 with
    | .accepted s => (.success s, [bh0, bh1])
    | .staleBlockhash => (.error .SubmitError, [bh0, bh1])
    | .rejected _ => (.error .SubmitError, [bh0, bh1])

/-- C6: when the first submission is rejected with a stale-blockhash
error, the pipeline performs exactly one automatic rebuild-and-resubmit
with a freshly fetched blockhash — exactly two submissions in total,
never a third — and if the second attempt is also rejected it surfaces
SubmitError to the caller. -/
theorem submit_stale_blockhash_single_rebuild
    (fetchBlockhash : Nat → String) (respond : String → RpcSubmitResult)
    (h0 : respond (fetchBlockhash 0) = RpcSubmitResult.staleBlockhash) :
    (submitStage fetchBlockhash respond).2 =
        [fetchBlockhash 0, fetchBlockhash 1] ∧
      ((respond (fetchBlockhash 1)).isRejection = true →
        (submitStage fetchBlockhash respond).1 =
          SubmitOutcome.error TradeError.SubmitError) := by
  refine ⟨?_, ?_⟩
  · simp only [submitStage, h0]
    cases hr : respond (fetchBlockhash 1) <;> simp
  · intro hrej
    simp only [submitStage, h0]
    cases hr : respond (fetchBlockhash 1) with
    | accepted s => rw [hr] at hrej; simp [RpcSubmitResult.isRejection] at hrej
    | staleBlockhash => simp
    | rejected msg => simp

/-- Witness for C6: the first submission hits a stale blockhash and the
rebuilt one is rejected for insufficient funds. -/
theorem submit_stale_blockhash_single_rebuild_witness :
    ((fun bh => if bh = "bh0" then RpcSubmitResult.staleBlockhash
        else RpcSubmitResult.rejected "insufficient funds")
          ((fun n => if n = 0 then "bh0" else "bh1") 0) =
        RpcSubmitResult.staleBlockhash) ∧
      ((submitStage (fun n => if n = 0 then "bh0" else "bh1")
            (fun bh => if bh = "bh0" then RpcSubmitResult.staleBlockhash
              else RpcSubmitResult.rejected "insufficient funds")).2 =
          [(fun n => if n = 0 then "bh0" else "bh1") 0,
            (fun n => if n = 0 then "bh0" else "bh1") 1] ∧
        (((fun bh => if bh = "bh0" then RpcSubmitResult.staleBlockhash
            else RpcSubmitResult.rejected "insufficient funds")
              ((fun n => if n = 0 then "bh0" else "bh1") 1)).isRejection =
                true →
          (submitStage (fun n => if n = 0 then "bh0" else "bh1")
              (fun bh => if bh = "bh0" then RpcSubmitResult.staleBlockhash
                else RpcSubmitResult.rejected "insufficient funds")).1 =
            SubmitOutcome.error TradeError.SubmitError)) :=
  ⟨by decide,
    submit_stale_blockhash_single_rebuild
      (fun n => if n = 0 then "bh0" else "bh1")
      (fun bh => if bh = "bh0" then RpcSubmitResult.staleBlockhash
        else RpcSubmitResult.rejected "insufficient funds")
      (by decide)⟩

/-- One getSignatureStatus verdict of the chain-RPC collaborator. -/
inductive SignatureStatus where
  | Pending
  | Confirmed
  | Failed
deriving Repr, DecidableEq

/-- Confirmation state of a SubmittedTransaction. -/
inductive ConfirmationState where
  | Pending
  | Confirmed
  | TimedOut
  | Failed
deriving Repr, DecidableEq

/-- Modelled from the spec: the confirm stage of the pumpfun Transaction
Pipeline (not shipped in this repository): it polls the signature
status at a fixed interval up to a bounded timeout; `polls` lists the
statuses observed at each poll inside the bound. The first Confirmed or
Failed verdict resolves the transaction; if the bound is exhausted
without one, the transaction is reported TimedOut. -/
def confirmStage : List SignatureStatus → ConfirmationState
  | [] => ConfirmationState.TimedOut
  | s :: rest =>
    match s with
    | .Confirmed => ConfirmationState.Confirmed
    | .Failed => ConfirmationState.Failed
    | .Pending => confirmStage rest

/-- C7: when confirmation polling reaches the bounded timeout without
observing a resolving status, the transaction is reported TimedOut,
which is distinct from the Failed verdict. -/
theorem confirm_timeout_not_failure (polls : List SignatureStatus)
    (h : ∀ s ∈ polls, s = SignatureStatus.Pending) :
    confirmStage polls = ConfirmationState.TimedOut ∧
      confirmStage polls ≠ ConfirmationState.Failed := by
  have ht : confirmStage polls = ConfirmationState.TimedOut := by
    induction polls with
    | nil => rfl
    | cons s rest ih =>
      have hs := h s (List.mem_cons_self s rest)
      have hrest := ih (fun q hq => h q (List.mem_cons_of_mem s hq))
      simp [confirmStage, hs, hrest]
  exact ⟨ht, by simp [ht]⟩

/-- Witness for C7, with three polls all still Pending at the bound. -/
theorem confirm_timeout_not_failure_witness :
    (∀ s ∈ [SignatureStatus.Pending, SignatureStatus.Pending,
        SignatureStatus.Pending], s = SignatureStatus.Pending) ∧
      (confirmStage [SignatureStatus.Pending, SignatureStatus.Pending,
            SignatureStatus.Pending] = ConfirmationState.TimedOut ∧
        confirmStage [SignatureStatus.Pending, SignatureStatus.Pending,
            SignatureStatus.Pending] ≠ ConfirmationState.Failed) :=
  ⟨by decide,
    confirm_timeout_not_failure
      [SignatureStatus.Pending, SignatureStatus.Pending,
        SignatureStatus.Pending] (by decide)⟩

/-! ## Liquidation Engine -/

/-- Per-token outcome recorded by the Liquidation Engine. -/
inductive TokenOutcome where
  | success (signature : String)
  | failed (e : TradeError)
deriving Repr, DecidableEq

/-- Modelled from the spec: liquidate_all_tokens of the pumpfun library
(not shipped in this repository). `tokens` enumerates the wallet's
non-zero token balances and `pipeline t` runs the full
build→confirm Transaction Pipeline on the sell of token `t`. The loop
is sequential; a token's failure is recorded in its entry and the loop
continues with the next token, producing a per-token outcome list. -/
def liquidate_all_tokens (pipeline : String → Except TradeError String) :
    List String → List (String × TokenOutcome)
  | [] => []
  | t :: rest =>
    (t, match pipeline t with
        | .ok sig => TokenOutcome.success sig
        | .error e => TokenOutcome.failed e) ::
      liquidate_all_tokens pipeline rest

/-- C8: the Liquidation Engine returns exactly one outcome entry per
held token; in the 3-token scenario where the second token's submit
fails with SubmitError, the result has 3 entries, tokens 1 and 3 marked
success, token 2 marked failed, and the pipeline was executed on token
3. -/
theorem liquidation_per_token_outcomes
    (pipeline : String → Except TradeError String) (tokens : List String)
    (t1 t2 t3 s1 s3 : String) (h1 : pipeline t1 = Except.ok s1)
    (h2 : pipeline t2 = Except.error TradeError.SubmitError)
    (h3 : pipeline t3 = Except.ok s3) :
    (liquidate_all_tokens pipeline tokens).length = tokens.length ∧
      liquidate_all_tokens pipeline [t1, t2, t3] =
        [(t1, TokenOutcome.success s1),
          (t2, TokenOutcome.failed TradeError.SubmitError),
          (t3, TokenOutcome.success s3)] := by
  refine ⟨?_, ?_⟩
  · induction tokens with
    | nil => rfl
    | cons t rest ih => simp [liquidate_all_tokens, ih]
  · simp [liquidate_all_tokens, h1, h2, h3]

/-- Witness for C8, with a concrete 3-token wallet whose second sell is
rejected. -/
theorem liquidation_per_token_outcomes_witness :
    ((fun t => if t = "mintB" then Except.error TradeError.SubmitError
        else Except.ok ("sig-" ++ t)) "mintA" =
          Except.ok ("sig-" ++ "mintA") ∧
      (fun t => if t = "mintB" then Except.error TradeError.SubmitError
        else Except.ok ("sig-" ++ t)) "mintB" =
          Except.error TradeError.SubmitError ∧
      (fun t => if t = "mintB" then Except.error TradeError.SubmitError
        else Except.ok ("sig-" ++ t)) "mintC" =
          Except.ok ("sig-" ++ "mintC")) ∧
      ((liquidate_all_tokens
          (fun t => if t = "mintB" then Except.error TradeError.SubmitError
            else Except.ok ("sig-" ++ t))
          ["mintA", "mintB", "mintC"]).length =
            ["mintA", "mintB", "mintC"].length ∧
        liquidate_all_tokens
            (fun t => if t = "mintB" then Except.error TradeError.SubmitError
              else Except.ok ("sig-" ++ t))
            ["mintA", "mintB", "mintC"] =
          [("mintA", TokenOutcome.success ("sig-" ++ "mintA")),
            ("mintB", TokenOutcome.failed TradeError.SubmitError),
            ("mintC", TokenOutcome.success ("sig-" ++ "mintC"))]) :=
  ⟨⟨by rfl, by rfl, by rfl⟩,
    liquidation_per_token_outcomes
      (fun t => if t = "mintB" then Except.error TradeError.SubmitError
        else Except.ok ("sig-" ++ t))
      ["mintA", "mintB", "mintC"] "mintA" "mintB" "mintC"
      ("sig-" ++ "mintA") ("sig-" ++ "mintC")
      (by rfl) (by rfl) (by rfl)⟩

/-! ## Price Fetcher -/

/-- Typed errors the Price Fetcher surfaces to its caller. Curve Math
errors propagate verbatim, wrapped without alteration. -/
inductive FetchError where
  | TokenNotFound
  | DecodeError
  | CurveMath (e : CurveError)
deriving Repr, DecidableEq

/-- A price snapshot derived entirely from the decoded curve state and
the current SOL/USD reference price. -/
structure PriceSnapshot where
  token_address : String
  price_sol : ℚ
  price_usd : ℚ
  market_cap_usd : ℚ
  bonding_progress : ℚ
  curve_state : CurveState
deriving Repr, DecidableEq

/-- Modelled from the spec: get_token_price of the pumpfun
PumpFunPriceFetcher (not shipped in this repository).
`deriveCurveAddress` resolves the deterministic program-derived curve
account for the mint, `getAccountInfo` is the chain-RPC lookup of raw
account bytes, `decode` parses them into a CurveState, and `solUsd` is
the injected SOL/USD reference price. A missing curve account surfaces
TokenNotFound, an unparseable layout surfaces DecodeError, and a Curve
Math failure propagates verbatim: the fetcher never substitutes a price
from any secondary source — fallback is the caller's job. -/
def get_token_price (deriveCurveAddress : String → String)
    (getAccountInfo : String → Option (List Nat))
    (decode : List Nat → Option CurveState) (solUsd : ℚ)
    (migrationThreshold : ℚ) (token : String) :
    Except FetchError PriceSnapshot :=
  match getAccountInfo (deriveCurveAddress token) with
  | none => Except.error FetchError.TokenNotFound
  | some bytes =>
    match decode bytes with
    | none => Except.error FetchError.DecodeError
    | some cs =>
      match price cs with
      | Except.error e => Except.error (FetchError.CurveMath e)
      | Except.ok p =>
        Except.ok
          { token_address := token
            price_sol := p
            price_usd := p * solUsd
            market_cap_usd :=
              ((cs.token_total_supply : ℚ) / TOKEN_UNITS_PER_TOKEN) * p *
                solUsd
            bonding_progress := bondingProgress cs migrationThreshold
            curve_state := cs }

/-- C9: on a failed chain lookup the Price Fetcher returns the typed
error TokenNotFound, and on a failed decode it returns the typed error
DecodeError; in both cases it returns an error, never a substituted
snapshot, so any fallback to a secondary price source can only happen
in the caller after the error has surfaced. -/
theorem fetcher_surfaces_typed_errors (deriveCurveAddress : String → String)
    (getAccountInfo : String → Option (List Nat))
    (decode : List Nat → Option CurveState) (solUsd : ℚ)
    (migrationThreshold : ℚ) (token : String) :
    (getAccountInfo (deriveCurveAddress token) = none →
        get_token_price deriveCurveAddress getAccountInfo decode solUsd
            migrationThreshold token =
          Except.error FetchError.TokenNotFound) ∧
      (∀ bytes, getAccountInfo (deriveCurveAddress token) = some bytes →
        decode bytes = none →
        get_token_price deriveCurveAddress getAccountInfo decode solUsd
            migrationThreshold token =
          Except.error FetchError.DecodeError) ∧
      (∀ snap, get_token_price deriveCurveAddress getAccountInfo decode
            solUsd migrationThreshold token = Except.ok snap →
        getAccountInfo (deriveCurveAddress token) ≠ none ∧
          ∀ bytes, getAccountInfo (deriveCurveAddress token) = some bytes →
            decode bytes ≠ none) := by
  refine ⟨?_, ?_, ?_⟩
  · intro h
    simp [get_token_price, h]
  · intro bytes hb hd
    simp [get_token_price, hb, hd]
  · intro snap hok
    cases hacct : getAccountInfo (deriveCurveAddress token) with
    | none => simp [get_token_price, hacct] at hok
    | some bytes =>
      refine ⟨by simp, ?_⟩
      intro b hb
      cases hb
      cases hdec : decode bytes with
      | none => simp [get_token_price, hacct, hdec] at hok
      | some cs => simp [hdec]

/-- Witness for C9: a chain on which the curve account is absent for
one mint and present but undecodable for another. -/
theorem fetcher_surfaces_typed_errors_witness :
    ((fun a => if a = "curve-of-gone" then none else some [0])
          ((fun m => "curve-of-" ++ m) "gone") = none →
        get_token_price (fun m => "curve-of-" ++ m)
            (fun a => if a = "curve-of-gone" then none else some [0])
            (fun _ => none) 150 85000000000 "gone" =
          Except.error FetchError.TokenNotFound) ∧
      (get_token_price (fun m => "curve-of-" ++ m)
          (fun a => if a = "curve-of-gone" then none else some [0])
          (fun _ => none) 150 85000000000 "gone" =
        Except.error FetchError.TokenNotFound) ∧
      (get_token_price (fun m => "curve-of-" ++ m)
          (fun a => if a = "curve-of-gone" then none else some [0])
          (fun _ => none) 150 85000000000 "garbled" =
        Except.error FetchError.DecodeError) :=
  ⟨(fetcher_surfaces_typed_errors (fun m => "curve-of-" ++ m)
      (fun a => if a = "curve-of-gone" then none else some [0])
      (fun _ => none) 150 85000000000 "gone").1,
    (fetcher_surfaces_typed_errors (fun m => "curve-of-" ++ m)
        (fun a => if a = "curve-of-gone" then none else some [0])
        (fun _ => none) 150 85000000000 "gone").1 (by rfl),
    (fetcher_surfaces_typed_errors (fun m => "curve-of-" ++ m)
        (fun a => if a = "curve-of-gone" then none else some [0])
        (fun _ => none) 150 85000000000 "garbled").2.1 [0] (by rfl)
      (by rfl)⟩

/-! ## Monitor cleanup (PUMPFUN_TOOLS.ipynb) -/

/-- Mutable state of the PumpFunPriceMonitor that cleanup_monitor in
PUMPFUN_TOOLS.ipynb touches: the running flag and the two subscription
sets. -/
structure MonitorState where
  is_running : Bool
  subscribed_tokens : List String
  subscribed_accounts : List String
deriving Repr, DecidableEq

/-- Modelled from the spec: stop_monitoring of the pumpfun
PumpFunPriceMonitor (not shipped in this repository). Cancellation
routes the session through Draining to Closed and the close handshake
is best-effort — failures are logged, not fatal — so stopping is a
total state transition that clears the running flag and raises
nothing. -/
def stop_monitoring (m : MonitorState) : MonitorState :=
  { m with is_running := false }

/-- cleanup_monitor from PUMPFUN_TOOLS.ipynb: inside a try block it
calls stop_monitoring only when is_running is set, then clears
subscribed_tokens and subscribed_accounts. Since the modelled
collaborators raise nothing (list clear cannot fail and
stop_monitoring is total per the spec), the surrounding
except-and-log handler is unreachable and the body is embedded
directly. -/
def cleanup_monitor (m : MonitorState) : MonitorState :=
  let m1 := if m.is_running then stop_monitoring m else m
  { m1 with subscribed_tokens := [], subscribed_accounts := [] }

/-- C10: whenever cleanup_monitor returns, both subscription sets of
the resulting monitor state are empty, whether or not the monitor was
running when cleanup started; when it was not running, the result is
exactly the input state with the two sets cleared, stop_monitoring
having not been applied. -/
theorem cleanup_monitor_clears_subscriptions (m : MonitorState) :
    (cleanup_monitor m).subscribed_tokens = [] ∧
      (cleanup_monitor m).subscribed_accounts = [] ∧
      (m.is_running = false →
        cleanup_monitor m =
          { m with subscribed_tokens := [], subscribed_accounts := [] }) := by
  refine ⟨?_, ?_, ?_⟩
  · by_cases h : m.is_running <;> simp [cleanup_monitor, h]
  · by_cases h : m.is_running <;> simp [cleanup_monitor, h]
  · intro h
    simp [cleanup_monitor, h]

/-- Witness for C10, on a stopped monitor still holding a stale token
subscription. -/
theorem cleanup_monitor_clears_subscriptions_witness :
    (cleanup_monitor ⟨false, ["tok1", "tok2"], ["acct1"]⟩).subscribed_tokens
          = [] ∧
      (cleanup_monitor
          ⟨false, ["tok1", "tok2"], ["acct1"]⟩).subscribed_accounts = [] ∧
      ((false : Bool) = false →
        cleanup_monitor ⟨false, ["tok1", "tok2"], ["acct1"]⟩ =
          ⟨false, [], []⟩) :=
  cleanup_monitor_clears_subscriptions ⟨false, ["tok1", "tok2"], ["acct1"]⟩

end DEXES
